import Mathlib

/-!
Shallow embedding of the glwindow crate (src/glwindow/src/lib.rs): a
single-window GL lifecycle driver built on winit and glutin.  External
collaborators (the winit event pump, the glutin display and its fallible
context/surface operations, the GPU symbol resolver) are modelled as an
oracle environment `Env`; the repository's own logic (config picking,
context fallback negotiation, the `ApplicationHandler` transition handlers,
the builder) is translated directly from the source.  Rust panics
(`unwrap` / `expect` / `assert!`) are modelled as `Option.none`.
-/

namespace GlWindow

/-- A glutin `Config` (surface configuration) as used by the repository:
`num_samples` (u8 in glutin, modelled as `Nat`) and
`supports_transparency`, which glutin reports as `Option<bool>`. -/
structure Config where
  num_samples : Nat
  supports_transparency : Option Bool
deriving DecidableEq

/-- The reduction step inside `gl_config_picker` (lib.rs lines 341-350):
`transparency_check = config.supports_transparency().unwrap_or(false)
& !accum.supports_transparency().unwrap_or(false)`; the candidate replaces
the accumulator when `transparency_check || config.num_samples() >
accum.num_samples()`. -/
def configReduceStep (accum config : Config) : Config :=
  let transparency_check :=
    (config.supports_transparency.getD false) && !(accum.supports_transparency.getD false)
  if transparency_check || decide (config.num_samples > accum.num_samples) then config
  else accum

/-- `gl_config_picker` (lib.rs lines 339-352): `Iterator::reduce` seeded with
the first candidate, then `.unwrap()`.  The `unwrap` panic on an empty
iterator is modelled as `none`. -/
def gl_config_picker : List Config → Option Config
  | [] => none
  | c :: rest => some (rest.foldl configReduceStep c)

/-- The Configuration Selector step as the spec words it (spec section 4.2):
a candidate replaces the accumulator if it newly supports transparency where
the accumulator does not; otherwise it replaces the accumulator if its
sample count is strictly greater.  "Supports transparency" for a
configuration whose transparency support is unreported is read as false,
matching the `unwrap_or(false)` in the source. -/
def specSelectorStep (accum cand : Config) : Config :=
  if cand.supports_transparency.getD false = true
      ∧ ¬ accum.supports_transparency.getD false = true then cand
  else if cand.num_samples > accum.num_samples then cand
  else accum

/-- A glutin `ContextApi` request as used in `create_gl_context`
(lib.rs lines 235-247): the platform-default modern request (no explicit
api), `ContextApi::Gles(None)`, or `ContextApi::OpenGl(Some(Version))`. -/
inductive ContextApi where
  | platformDefault
  | gles
  | openGl (major minor : Nat)
deriving DecidableEq

/-- A created GL context: an identity for the underlying driver handle, the
API level actually granted, the surface configuration it was created
against (recoverable via `GetGlConfig::config`), and whether it is current
on the calling thread. -/
structure Ctx where
  id : Nat
  api : ContextApi
  config : Config
  current : Bool
deriving DecidableEq

/-- `create_gl_context` (lib.rs lines 231-267), instrumented with the list
of creation attempts actually issued to the display.  `create` is the
oracle for `gl_display.create_context` at each attribute set; `none` from
all three levels models the final `expect("failed to create context")`
panic.  Intermediate failures are swallowed (`unwrap_or_else`). -/
def create_gl_context_trace (create : ContextApi → Option Ctx) :
    Option Ctx × List ContextApi :=
  match create .platformDefault with
  | some c => (some c, [.platformDefault])
  | none =>
    match create .gles with
    | some c => (some c, [.platformDefault, .gles])
    | none =>
      match create (.openGl 2 1) with
      | some c => (some c, [.platformDefault, .gles, .openGl 2 1])
      | none => (none, [.platformDefault, .gles, .openGl 2 1])

/-- The value `create_gl_context` returns (dropping the instrumentation). -/
def create_gl_context (create : ContextApi → Option Ctx) : Option Ctx :=
  (create_gl_context_trace create).1

/-- First-success-wins over an ordered list of attempt levels, as the spec
words the negotiation contract (spec section 4.1). -/
def firstSuccess (create : ContextApi → Option Ctx) : List ContextApi → Option Ctx
  | [] => none
  | api :: rest =>
    match create api with
    | some c => some c
    | none => firstSuccess create rest

/-- Witness for C3 at a concrete oracle: the modern attempt fails, GLES
succeeds. -/
def glesOnlyCreate : ContextApi → Option Ctx
  | .gles => some ⟨0, .gles, ⟨4, some true⟩, false⟩
  | _ => none

/-- A winit window icon, as stored after a successful `Icon::from_rgba`:
the RGBA byte payload (bytes modelled as `Nat`) and u32 pixel
dimensions. -/
structure Icon where
  rgba : List Nat
  width : Nat
  height : Nat
deriving DecidableEq

/-- Modelled behaviour of winit's `Icon::from_rgba(rgba, width, height)`
(external dependency of lib.rs line 456), per its documented contract: the
byte count must be divisible by 4 (one RGBA pixel is 4 bytes) and the pixel
count `rgba.len() / 4` must equal `width * height`; otherwise it returns a
`BadIcon` error.  `width` and `height` are u32 at this interface. -/
def Icon.from_rgba (rgba : List Nat) (width height : Nat) : Option Icon :=
  if rgba.length % 4 = 0 ∧ rgba.length / 4 = width * height then
    some ⟨rgba, width, height⟩
  else none

/-- `WindowInformation` (lib.rs lines 392-401): the requested window
properties accumulated by the builder. -/
structure WindowInformation where
  transparent : Bool
  fullscreen : Bool
  resizable : Bool
  size : Option (Nat × Nat)
  title : String
  icon : Option Icon
  cursor_visible : Bool
  cursor_grabbed : Bool
deriving DecidableEq

/-- The public builder `Window<S, H, R>` (lib.rs lines 403-408).  The three
type parameters of the Rust struct are phantom; only the application-state
type is kept. -/
structure Window (S : Type) where
  window_info : WindowInformation
deriving DecidableEq

/-- `Window::new` (lib.rs lines 411-427) with its defaults. -/
def Window.new (S : Type) : Window S :=
  ⟨{ transparent := true
     fullscreen := false
     resizable := true
     size := none
     title := ""
     icon := none
     cursor_visible := true
     cursor_grabbed := false }⟩

/-- `Window::set_icon` (lib.rs lines 454-458):
`Icon::from_rgba(data.to_vec(), width as u32, height as u32).unwrap()`.
The `usize`-to-`u32` casts truncate modulo 2^32 (64-bit target), and the
`unwrap` panic is modelled as `none`. -/
def Window.set_icon (w : Window S) (data : List Nat) (width height : Nat) :
    Option (Window S) :=
  match Icon.from_rgba data (width % 2 ^ 32) (height % 2 ^ 32) with
  | none => none
  | some i => some ⟨{ w.window_info with icon := some i }⟩

variable {S : Type}

/-- The Rust `u32 as i32` cast: two's-complement reinterpretation of a
32-bit unsigned value. -/
def i32ofU32 (w : Nat) : Int :=
  if w % 2 ^ 32 < 2 ^ 31 then ((w % 2 ^ 32 : Nat) : Int)
  else ((w % 2 ^ 32 : Nat) : Int) - 2 ^ 32

/-- A live window-backed GL surface (glutin `Surface<WindowSurface>`):
identity of the underlying handle plus its pixel dimensions, which
`Surface::resize` updates. -/
structure Surf where
  id : Nat
  width : Nat
  height : Nat
deriving DecidableEq

/-- A realized winit platform window (identity of the native handle). -/
structure PlatformWindow where
  id : Nat
deriving DecidableEq

/-- `GlState` (lib.rs lines 330-335): the live (surface, window) resource
pair. -/
structure GlState where
  gl_surface : Surf
  window : PlatformWindow
deriving DecidableEq

/-- `GlDisplayCreationState` (lib.rs lines 288-293): whether the display
(and with it the config and context) has ever been initialized. -/
inductive GlDisplayCreationState where
  | builder
  | init
deriving DecidableEq

/-- `AppControl` (lib.rs lines 362-365): the event handler's verdict. -/
inductive AppControl where
  | Continue
  | Exit
deriving DecidableEq

/-- A winit window event as dispatched by `window_event` (lib.rs lines
163-200): a resize carrying u32 physical dimensions, or any other window
event (close request, input, focus, ...), identified by an opaque tag. -/
inductive WindowEvent where
  | resized (width height : Nat)
  | other (tag : Nat)
deriving DecidableEq

/-- `App<S, H, R>` (lib.rs lines 295-306).  The boxed error values carried
by `exit_state` and returned by the handler are modelled as `Nat`; the
`RendererHandle` is opaque and modelled by the identity of its single
construction.  `exited` models whether `event_loop.exit()` has been
called, and `fresh` is a counter supplying identities for newly created
platform resources. -/
structure App (S : Type) where
  renderer : Option Nat
  app_state : S
  handler : S → WindowEvent → S × Except Nat AppControl
  window_info : WindowInformation
  gl_state : Option GlState
  gl_context : Option Ctx
  gl_display : GlDisplayCreationState
  exit_state : Except Nat Unit
  exited : Bool
  fresh : Nat

/-- `App::new` (lib.rs lines 308-328), as invoked from `Window::run`
(lib.rs lines 480-481). -/
def App.new (wi : WindowInformation) (s : S)
    (handler : S → WindowEvent → S × Except Nat AppControl) : App S :=
  { renderer := none
    app_state := s
    handler := handler
    window_info := wi
    gl_state := none
    gl_context := none
    gl_display := .builder
    exit_state := .ok ()
    exited := false
    fresh := 0 }

/-- Oracle environment for the external collaborators: the winit display
builder, the glutin display operations, and the platform cursor calls.
Each field answers whether (or with what) the corresponding fallible
external call succeeds. -/
structure Env where
  buildResult : Except Nat Unit
  offeredConfigs : List Config
  finalizeWindow : Except Nat Unit
  grabConfined : Bool
  grabLocked : Bool
  createContext : ContextApi → Bool
  surfaceAttrsOk : Bool
  createSurfaceOk : Bool
  surfaceSize : Nat × Nat
  makeCurrentOk : Bool
  makeNotCurrentOk : Bool
  vsyncOk : Bool
  swapOk : Bool

/-- Externally observable actions emitted by the transition handlers. -/
inductive Effect where
  | configPicked (cfg : Config)
  | cursorVisible (visible : Bool)
  | grabConfined
  | grabLocked
  | createContextAttempt (api : ContextApi)
  | surfaceCreated (cfg : Config)
  | ctxMadeCurrent
  | ctxMadeNotCurrent
  | rendererInit
  | setVsync
  | vsyncFailed
  | surfaceResize (width height : Nat)
  | rendererResize (width height : Int)
  | handlerInvoked
  | rendererDraw
  | requestRedraw
  | swapBuffers
deriving DecidableEq

/-- The display's `create_context` oracle for a fixed chosen config, giving
a newly created (not yet current) context the identity `id`. -/
def envCreate (env : Env) (cfg : Config) (id : Nat) : ContextApi → Option Ctx :=
  fun api => if env.createContext api then some ⟨id, api, cfg, false⟩ else none

/-- The cursor application block shared by both `resumed` paths (lib.rs
lines 49-55 and 85-91): set cursor visibility, then if a grab was
requested try `CursorGrabMode::Confined`, fall back to
`CursorGrabMode::Locked`, and `unwrap` (panic, modelled `none`) when both
fail. -/
def applyCursor (env : Env) (wi : WindowInformation) : Option (List Effect) :=
  if wi.cursor_grabbed then
    if env.grabConfined then some [.cursorVisible wi.cursor_visible, .grabConfined]
    else if env.grabLocked then some [.cursorVisible wi.cursor_visible, .grabLocked]
    else none
  else some [.cursorVisible wi.cursor_visible]

/-- Outcome of the display-dependent first half of `resumed` (lib.rs lines
38-101): either the failure branch that records the error and exits the
loop, or the (window, config) pair to continue with. -/
inductive ResumeHead (S : Type) where
  | exitTaken (a : App S) (effs : List Effect)
  | proceed (w : PlatformWindow) (cfg : Config) (a : App S) (effs : List Effect)

/-- First half of `resumed`.  In the `Builder` state the display builder is
built (running `gl_config_picker` over the platform-offered configs —
empty offer panics inside glutin-winit), cursor settings are applied (a
double grab failure panics), the state moves to `Init` and the context is
negotiated (total negotiation failure panics via `expect`).  In the `Init`
state the config is read off the stored context (`unwrap` panics if it is
absent), a fresh window is finalized against it, and cursor settings are
applied; a finalize failure records the error and exits. -/
def resumeHead (env : Env) (a : App S) : Option (ResumeHead S) :=
  match a.gl_display with
  | .builder =>
    match env.buildResult with
    | .error err => some (.exitTaken { a with exit_state := .error err, exited := true } [])
    | .ok _ =>
      match gl_config_picker env.offeredConfigs with
      | none => none
      | some cfg =>
        match applyCursor env a.window_info with
        | none => none
        | some ceffs =>
          match create_gl_context_trace (envCreate env cfg (a.fresh + 1)) with
          | (none, _) => none
          | (some c, attempts) =>
            some (.proceed ⟨a.fresh⟩ cfg
              { a with gl_display := .init, gl_context := some c, fresh := a.fresh + 2 }
              (Effect.configPicked cfg :: ceffs ++ attempts.map Effect.createContextAttempt))
  | .init =>
    match a.gl_context with
    | none => none
    | some c =>
      match env.finalizeWindow with
      | .error err => some (.exitTaken { a with exit_state := .error err, exited := true } [])
      | .ok _ =>
        match applyCursor env a.window_info with
        | none => none
        | some ceffs => some (.proceed ⟨a.fresh⟩ c.config { a with fresh := a.fresh + 1 } ceffs)

/-- The `self.renderer.get_or_insert_with(...)` block (lib.rs lines
119-128): when no renderer exists yet, resolve the GPU entry points and
run the renderer constructor (one `rendererInit` effect); otherwise leave
the existing instance untouched. -/
def insertRenderer (a : App S) : App S × List Effect :=
  match a.renderer with
  | some _ => (a, [])
  | none => ({ a with renderer := some a.fresh, fresh := a.fresh + 1 },
             [Effect.rendererInit])

/-- Second half of `resumed` (lib.rs lines 103-141), common to both paths:
build surface attributes (`expect` panics on failure), create the window
surface (`unwrap`), make the context current against it (`unwrap`),
lazily construct the renderer via the symbol resolver only when none
exists yet, try to enable vsync (logged and continued on failure), and
`assert!` that no live resource pair pre-exists before storing the new
(surface, window) pair. -/
def resumeTail (env : Env) (w : PlatformWindow) (cfg : Config) (a : App S) :
    Option (App S × List Effect) :=
  if env.surfaceAttrsOk then
    if env.createSurfaceOk then
      let surf : Surf := ⟨a.fresh, env.surfaceSize.1, env.surfaceSize.2⟩
      match a.gl_context with
      | none => none
      | some c =>
        if env.makeCurrentOk then
          let ra : App S × List Effect := insertRenderer
            { a with gl_context := some { c with current := true }, fresh := a.fresh + 1 }
          let veffs : List Effect := if env.vsyncOk then [.setVsync] else [.vsyncFailed]
          match ra.1.gl_state with
          | some _ => none
          | none => some ({ ra.1 with gl_state := some ⟨surf, w⟩ },
              [Effect.surfaceCreated cfg, Effect.ctxMadeCurrent] ++ ra.2 ++ veffs)
        else none
    else none
  else none

/-- `resumed` (lib.rs lines 37-141). -/
def resumed (env : Env) (a : App S) : Option (App S × List Effect) :=
  match resumeHead env a with
  | none => none
  | some (.exitTaken a2 effs) => some (a2, effs)
  | some (.proceed w cfg a2 effs) =>
    match resumeTail env w cfg a2 with
    | none => none
    | some (a3, effs2) => some (a3, effs ++ effs2)

/-- `suspended` (lib.rs lines 143-161): drop the live (surface, window)
pair, then take the stored context (`unwrap` panics if absent), make it
not current (`unwrap` panics on failure) and store it back as possibly
current.  The context value itself is retained. -/
def suspended (env : Env) (a : App S) : Option (App S × List Effect) :=
  match a.gl_context with
  | none => none
  | some c =>
    if env.makeNotCurrentOk then
      some ({ a with gl_state := none, gl_context := some { c with current := false } },
        [.ctxMadeNotCurrent])
    else none

/-- The catch-all arm of the `window_event` match (lib.rs lines 191-198):
forward the event to the user handler; `Continue` keeps going, `Exit`
exits the loop, an error records the error and exits the loop.  The
handler receives mutable access to the application state in every case. -/
def handlerStep (a : App S) (ev : WindowEvent) : App S × List Effect :=
  match a.handler a.app_state ev with
  | (s2, .ok .Continue) => ({ a with app_state := s2 }, [.handlerInvoked])
  | (s2, .ok .Exit) => ({ a with app_state := s2, exited := true }, [.handlerInvoked])
  | (s2, .error e) =>
      ({ a with app_state := s2, exit_state := .error e, exited := true }, [.handlerInvoked])

/-- `window_event` (lib.rs lines 163-200).  A `Resized` event passes the
guard only when both dimensions are non-zero; it then resizes the live
surface (`unwrap`s on the stored context and renderer) and forwards the
dimensions cast `as i32` to the renderer.  Every event failing the guard —
including a zero-dimension resize — falls through to the handler arm. -/
def window_event (a : App S) (ev : WindowEvent) : Option (App S × List Effect) :=
  match ev with
  | .resized w h =>
    if w ≠ 0 ∧ h ≠ 0 then
      match a.gl_state with
      | some gs =>
        match a.gl_context with
        | none => none
        | some _ =>
          match a.renderer with
          | none => none
          | some _ =>
            let surf2 : Surf := { gs.gl_surface with width := w, height := h }
            some ({ a with gl_state := some { gs with gl_surface := surf2 } },
              [.surfaceResize w h, .rendererResize (i32ofU32 w) (i32ofU32 h)])
      | none => some (a, [])
    else some (handlerStep a (.resized w h))
  | .other t => some (handlerStep a (.other t))

/-- `about_to_wait` (lib.rs lines 219-228): when a live resource pair
exists, draw, request the next redraw, and swap buffers (`unwrap` panics
on presentation failure). -/
def about_to_wait (env : Env) (a : App S) : Option (App S × List Effect) :=
  match a.gl_state with
  | none => some (a, [])
  | some _ =>
    match a.gl_context with
    | none => none
    | some _ =>
      match a.renderer with
      | none => none
      | some _ =>
        if env.swapOk then
          some (a, [.rendererDraw, .requestRedraw, .swapBuffers])
        else none

/-- `exiting` (lib.rs lines 202-217): take the stored context (`unwrap`
panics if it was never created) to release its display association, and
drop the live resource pair. -/
def exiting (a : App S) : Option (App S) :=
  match a.gl_context with
  | none => none
  | some _ => some { a with gl_context := none, gl_state := none }

/-- A platform lifecycle signal as delivered by the winit event pump. -/
inductive LoopEvent where
  | resumed
  | suspended
  | windowEvent (ev : WindowEvent)
  | aboutToWait
deriving DecidableEq

/-- Dispatch of one delivered signal to the matching `ApplicationHandler`
method. -/
def step (env : Env) (a : App S) : LoopEvent → Option (App S × List Effect)
  | .resumed => resumed env a
  | .suspended => suspended env a
  | .windowEvent ev => window_event a ev
  | .aboutToWait => about_to_wait env a

/-- Serialized delivery of a stream of signals: once `event_loop.exit()`
has been called no further signal is dispatched; a panic anywhere aborts
everything. -/
def runEvents (env : Env) (a : App S) : List LoopEvent → Option (App S × List Effect)
  | [] => some (a, [])
  | e :: es =>
    if a.exited then some (a, [])
    else
      match step env a e with
      | none => none
      | some (a2, effs) =>
        match runEvents env a2 es with
        | none => none
        | some (a3, effs2) => some (a3, effs ++ effs2)

/-- Outcome of `Window::run` (lib.rs lines 470-485) on a given signal
stream: a panic aborts the process; if the loop was exited, winit delivers
`exiting` and `run` returns `app.exit_state` to its caller; if the stream
ends without an exit the entry point has not returned. -/
inductive RunOutcome where
  | panicked
  | pending (tr : List Effect)
  | returned (r : Except Nat Unit) (tr : List Effect)

/-- Whether the run entry point returned a result value at all. -/
def RunOutcome.isReturned : RunOutcome → Bool
  | .returned _ _ => true
  | _ => false

/-- `Window::run` (lib.rs lines 470-485) driven by a signal stream: run the
event loop, and after it exits return `app.exit_state`. -/
def run (env : Env) (a : App S) (events : List LoopEvent) : RunOutcome :=
  match runEvents env a events with
  | none => .panicked
  | some (a2, tr) =>
    if a2.exited then
      match exiting a2 with
      | none => .panicked
      | some a3 => .returned a3.exit_state tr
    else .pending tr

/-- C7 counterexample: an application whose handler increments its `Nat`
state on every event it receives. -/
def bumpApp : App Nat :=
  App.new (Window.new Nat).window_info 0 (fun s _ => (s + 1, .ok .Continue))

/-- A concrete application mid-run with a live resource set, used as the
input of several counterexamples and witnesses. -/
def liveApp : App Nat :=
  { renderer := some 3
    app_state := 0
    handler := fun s _ => (s, .ok .Continue)
    window_info := (Window.new Nat).window_info
    gl_state := some ⟨⟨2, 100, 100⟩, ⟨1⟩⟩
    gl_context := some ⟨0, .platformDefault, ⟨4, some true⟩, true⟩
    gl_display := .init
    exit_state := .ok ()
    exited := false
    fresh := 4 }

/-- Whether a window event falls through the resize guard to the user
handler arm of `window_event`. -/
def dispatchesToHandler : WindowEvent → Bool
  | .resized w h => w == 0 || h == 0
  | .other _ => true

/-- A concrete application whose handler reports the error 7 on every
event. -/
def errApp : App Nat :=
  { liveApp with handler := fun s _ => (s, .error 7) }

/-- An all-success oracle environment. -/
def envOk : Env :=
  { buildResult := .ok ()
    offeredConfigs := [⟨4, some true⟩]
    finalizeWindow := .ok ()
    grabConfined := true
    grabLocked := true
    createContext := fun _ => true
    surfaceAttrsOk := true
    createSurfaceOk := true
    surfaceSize := (640, 480)
    makeCurrentOk := true
    makeNotCurrentOk := true
    vsyncOk := true
    swapOk := true }

/-- The state and trace after suspending `liveApp` under `envOk`. -/
def susPair : App Nat × List Effect := (suspended envOk liveApp).getD (liveApp, [])

/-- The state and trace after resuming the suspended `liveApp` under
`envOk`. -/
def resPair : App Nat × List Effect := (resumed envOk susPair.1).getD (liveApp, [])

/-- A freshly constructed application, as built by `Window::run` before
the event loop starts. -/
def initialApp : App Nat :=
  App.new (Window.new Nat).window_info 0 (fun s _ => (s, .ok .Continue))

/-- Environment in which every context-creation attempt is rejected. -/
def envNoContext : Env := { envOk with createContext := fun _ => false }

/-- Environment whose display builder fails with error 11. -/
def envErrBuild : Env := { envOk with buildResult := .error 11 }

/-- Environment whose window finalization fails with error 12. -/
def envErrFin : Env := { envOk with finalizeWindow := .error 12 }

/-- Environment in which both cursor grab modes are rejected. -/
def envNoGrab : Env := { envOk with grabConfined := false, grabLocked := false }

/-- Environment in which making a context current fails. -/
def envNoCurrent : Env := { envOk with makeCurrentOk := false }

/-- Environment in which the buffer swap fails. -/
def envNoSwap : Env := { envOk with swapOk := false }

/-- A fresh application that requested a cursor grab. -/
def grabApp : App Nat :=
  App.new { (Window.new Nat).window_info with cursor_grabbed := true } 0
    (fun s _ => (s, .ok .Continue))

/-- The renderer budget: 1 while the renderer is still unconstructed, 0
afterwards. -/
def rendererBudget (a : App S) : Nat := if a.renderer.isSome then 0 else 1

/-- The state and trace of running `liveApp` through a deactivate-activate
pair under `envOk`. -/
def runPairC9 : App Nat × List Effect :=
  (runEvents envOk liveApp [.suspended, .resumed]).getD (liveApp, [])

lemma configReduceStep_eq_specSelectorStep (x y : Config) :
    configReduceStep x y = specSelectorStep x y := by
  unfold configReduceStep specSelectorStep
  by_cases h1 : y.supports_transparency.getD false = true <;>
    by_cases h2 : x.supports_transparency.getD false = true <;>
      by_cases h3 : y.num_samples > x.num_samples <;>
        simp [h1, h2, h3]

lemma foldl_congr_fun (f g : Config → Config → Config)
    (h : ∀ x y, f x y = g x y) :
    ∀ (l : List Config) (a : Config), l.foldl f a = l.foldl g a
  | [], _ => rfl
  | x :: xs, a => by
      rw [List.foldl_cons, List.foldl_cons, h, foldl_congr_fun f g h xs]

/-- C1: for every sequence of candidate surface configurations,
`gl_config_picker` returns the left-to-right reduce in which the first
candidate seeds the accumulator and a candidate replaces the accumulator
exactly when it newly supports transparency where the accumulator does not,
or otherwise when its sample count is strictly greater; it fails (panics on
`unwrap`, modelled as `none`) exactly on empty input. -/
theorem config_picker_is_spec_reduce (configs : List Config) :
    gl_config_picker configs =
      (match configs with
       | [] => none
       | c :: rest => some (rest.foldl specSelectorStep c)) := by
  cases configs with
  | nil => rfl
  | cons c rest =>
      simp only [gl_config_picker]
      exact congrArg some (foldl_congr_fun _ _ configReduceStep_eq_specSelectorStep rest c)

/-- C2 counterexample: on the candidate sequence
[(samples=4,transparent=false), (samples=2,transparent=true),
(samples=8,transparent=false)] the picker does NOT select
(samples=2,transparent=true): the third candidate has strictly more samples
than the transparent accumulator and replaces it. -/
theorem config_picker_example_not_transparent :
    gl_config_picker [⟨4, some false⟩, ⟨2, some true⟩, ⟨8, some false⟩] ≠
      some ⟨2, some true⟩ := by decide

/-- C2 amended: on the candidate sequence
[(samples=4,transparent=false), (samples=2,transparent=true),
(samples=8,transparent=false)] the picker selects
(samples=8,transparent=false): the transparent candidate wins over the
first, but the 8-sample candidate then replaces it because the
transparency check only fires for candidates that newly gain transparency,
while a strictly greater sample count always wins. -/
theorem config_picker_example_selects_max_samples :
    gl_config_picker [⟨4, some false⟩, ⟨2, some true⟩, ⟨8, some false⟩] =
      some ⟨8, some false⟩ := by decide

/-- C3: context negotiation attempts creation in the strict order
platform-default modern, then GLES, then legacy OpenGL 2.1, returning the
first context whose creation succeeds; and when the modern attempt fails
while the GLES attempt succeeds, the result is the GLES context and the
legacy level is never attempted. -/
theorem create_gl_context_fallback_order (create : ContextApi → Option Ctx) (c : Ctx) :
    create_gl_context create =
      firstSuccess create [.platformDefault, .gles, .openGl 2 1] ∧
    (create .platformDefault = none → create .gles = some c →
      create_gl_context create = some c ∧
      (create_gl_context_trace create).2 = [.platformDefault, .gles] ∧
      ContextApi.openGl 2 1 ∉ (create_gl_context_trace create).2) := by
  unfold create_gl_context create_gl_context_trace firstSuccess
  cases h1 : create .platformDefault <;>
    cases h2 : create .gles <;>
      cases h3 : create (.openGl 2 1) <;>
        simp_all [firstSuccess]

theorem create_gl_context_fallback_order_witness :
    create_gl_context glesOnlyCreate =
      firstSuccess glesOnlyCreate [.platformDefault, .gles, .openGl 2 1] ∧
    (create_gl_context glesOnlyCreate = some ⟨0, .gles, ⟨4, some true⟩, false⟩ ∧
      (create_gl_context_trace glesOnlyCreate).2 = [.platformDefault, .gles] ∧
      ContextApi.openGl 2 1 ∉ (create_gl_context_trace glesOnlyCreate).2) :=
  ⟨(create_gl_context_fallback_order glesOnlyCreate ⟨0, .gles, ⟨4, some true⟩, false⟩).1,
   (create_gl_context_fallback_order glesOnlyCreate ⟨0, .gles, ⟨4, some true⟩, false⟩).2
     rfl rfl⟩

/-- C10 counterexample: with `width = 2^32` (and `height = 1`) the
`width as u32` cast truncates to 0, so `set_icon` with an empty byte slice
succeeds even though the data length (0) differs from
`width * height * 4 = 2^34`; the claim predicts a panic on every such
input. -/
theorem set_icon_no_panic_on_truncated_width :
    (Window.set_icon (Window.new Nat) [] (2 ^ 32) 1).isSome = true ∧
      List.length ([] : List Nat) ≠ 2 ^ 32 * 1 * 4 := by
  constructor
  · rfl
  · decide

/-- C10 amended: `set_icon` panics (returns no builder) exactly when the
data length differs from `(width mod 2^32) * (height mod 2^32) * 4`, i.e.
the claim's validity condition holds only after the `usize as u32`
truncation of the requested dimensions; on success the icon stores the
truncated dimensions. -/
theorem set_icon_panics_iff_invalid (S : Type) (w : Window S) (data : List Nat)
    (width height : Nat) :
    Window.set_icon w data width height =
      (if data.length = width % 2 ^ 32 * (height % 2 ^ 32) * 4 then
        some ⟨{ w.window_info with
                icon := some ⟨data, width % 2 ^ 32, height % 2 ^ 32⟩ }⟩
       else none) := by
  unfold Window.set_icon Icon.from_rgba
  by_cases h : data.length % 4 = 0 ∧
      data.length / 4 = width % 2 ^ 32 * (height % 2 ^ 32)
  · rw [if_pos h, if_pos (by omega)]
  · rw [if_neg h, if_neg (by omega)]

lemma handlerStep_effects (a : App S) (ev : WindowEvent) :
    (handlerStep a ev).2 = [.handlerInvoked] := by
  unfold handlerStep
  split <;> rfl

lemma runEvents_exited (env : Env) (a : App S) (h : a.exited = true)
    (events : List LoopEvent) : runEvents env a events = some (a, []) := by
  cases events <;> simp [runEvents, h]

/-- C7 counterexample: a resize event with zero width is not ignored — it
falls through the non-zero guard into the catch-all arm and is forwarded
to the user event handler, which here observably changes the application
state from 0 to 1. -/
theorem zero_resize_reaches_handler :
    (window_event bumpApp (.resized 0 5)).map (fun p => (p.1.app_state, p.2)) =
      some (1, [.handlerInvoked]) ∧ bumpApp.app_state = 0 :=
  ⟨rfl, rfl⟩

/-- C7 amended: a resize event carrying a zero width or height never
invokes the surface resize or the renderer's resize notification — but it
is not ignored entirely: it is forwarded verbatim to the user event
handler like any other non-resize event (its only emitted effect is the
handler invocation), so it can change application state, request
shutdown, or record an error. -/
theorem zero_resize_skips_resize_path (a : App S) (w h : Nat)
    (hz : w = 0 ∨ h = 0) :
    window_event a (.resized w h) = some (handlerStep a (.resized w h)) ∧
    (handlerStep a (.resized w h)).2 = [.handlerInvoked] := by
  refine ⟨?_, handlerStep_effects a _⟩
  have hcond : ¬(w ≠ 0 ∧ h ≠ 0) := by rcases hz with rfl | rfl <;> simp
  simp [window_event, hcond]

/-- Witness for C7 amended at a concrete application and event. -/
theorem zero_resize_skips_resize_path_witness :
    window_event bumpApp (.resized 0 5) = some (handlerStep bumpApp (.resized 0 5)) ∧
    (handlerStep bumpApp (.resized 0 5)).2 = [.handlerInvoked] :=
  zero_resize_skips_resize_path bumpApp 0 5 (Or.inl rfl)

/-- C8 counterexample: for a resize to width 2^31 (and height 1) the
renderer's resize notification receives `2^31 as i32 = -2^31`, which is
not the event's width — the dimensions are not forwarded exactly. -/
theorem resize_forwards_wrapped_i32 :
    (window_event liveApp (.resized (2 ^ 31) 1)).map (fun p => p.2) =
      some [.surfaceResize (2 ^ 31) 1, .rendererResize (-(2 ^ 31)) 1] ∧
    (-(2 ^ 31) : Int) ≠ ((2 ^ 31 : Nat) : Int) := by
  constructor
  · decide
  · decide

/-- C8 amended: for every resize with both dimensions non-zero and a live
resource set, the surface is resized to exactly the new dimensions, and
the renderer receives the dimensions cast `as i32` (exactly the event's
dimensions whenever each is below 2^31); repeating the same resize is a
no-op on the state — no panic, no error, and no new resource identity is
allocated. -/
theorem nonzero_resize_exact_and_idempotent (a : App S) (gs : GlState) (c : Ctx)
    (r w h : Nat) (hgs : a.gl_state = some gs) (hc : a.gl_context = some c)
    (hr : a.renderer = some r) (hw : w ≠ 0) (hh : h ≠ 0) :
    window_event a (.resized w h) =
      some ({ a with gl_state := some { gs with gl_surface := { gs.gl_surface with width := w, height := h } } },
        [.surfaceResize w h, .rendererResize (i32ofU32 w) (i32ofU32 h)]) ∧
    window_event ({ a with gl_state := some { gs with gl_surface := { gs.gl_surface with width := w, height := h } } }) (.resized w h) =
      some ({ a with gl_state := some { gs with gl_surface := { gs.gl_surface with width := w, height := h } } },
        [.surfaceResize w h, .rendererResize (i32ofU32 w) (i32ofU32 h)]) ∧
    ({ a with gl_state := some { gs with gl_surface := { gs.gl_surface with width := w, height := h } } } : App S).fresh = a.fresh ∧
    (w < 2 ^ 31 → i32ofU32 w = (w : Int)) ∧
    (h < 2 ^ 31 → i32ofU32 h = (h : Int)) := by
  refine ⟨?_, ?_, rfl, ?_, ?_⟩
  · simp [window_event, hgs, hc, hr, hw, hh]
  · simp [window_event, hgs, hc, hr, hw, hh]
  · intro hlt
    unfold i32ofU32
    rw [Nat.mod_eq_of_lt (lt_trans hlt (by norm_num)), if_pos hlt]
  · intro hlt
    unfold i32ofU32
    rw [Nat.mod_eq_of_lt (lt_trans hlt (by norm_num)), if_pos hlt]

/-- Witness for C8 amended at a concrete live application and a 800x600
resize. -/
theorem nonzero_resize_exact_and_idempotent_witness :
    window_event liveApp (.resized 800 600) =
      some ({ liveApp with gl_state := some ⟨⟨2, 800, 600⟩, ⟨1⟩⟩ },
        [.surfaceResize 800 600, .rendererResize (i32ofU32 800) (i32ofU32 600)]) ∧
    window_event ({ liveApp with gl_state := some ⟨⟨2, 800, 600⟩, ⟨1⟩⟩ }) (.resized 800 600) =
      some ({ liveApp with gl_state := some ⟨⟨2, 800, 600⟩, ⟨1⟩⟩ },
        [.surfaceResize 800 600, .rendererResize (i32ofU32 800) (i32ofU32 600)]) ∧
    ({ liveApp with gl_state := some ⟨⟨2, 800, 600⟩, ⟨1⟩⟩ } : App Nat).fresh = liveApp.fresh ∧
    (800 < 2 ^ 31 → i32ofU32 800 = (800 : Int)) ∧
    (600 < 2 ^ 31 → i32ofU32 600 = (600 : Int)) :=
  nonzero_resize_exact_and_idempotent liveApp ⟨⟨2, 100, 100⟩, ⟨1⟩⟩
    ⟨0, .platformDefault, ⟨4, some true⟩, true⟩ 3 800 600 rfl rfl rfl
    (by decide) (by decide)

/-- C6: when the user handler answers a dispatched event with `Exit`, the
run entry point returns success; when it answers with an error, the entry
point returns exactly that error.  In both cases the remainder of the
signal stream is never processed and the full run trace is the single
handler invocation — in particular presentation (buffer swap) is never
invoked again. -/
theorem handler_exit_and_error_returned (env : Env) (a : App S) (c : Ctx)
    (ev : WindowEvent) (rest : List LoopEvent) (s2 : S)
    (res : Except Nat AppControl) (hex : a.exited = false)
    (hst : a.exit_state = .ok ()) (hc : a.gl_context = some c)
    (hd : dispatchesToHandler ev = true)
    (hh : a.handler a.app_state ev = (s2, res)) (hne : res ≠ .ok .Continue) :
    run env a (.windowEvent ev :: rest) =
      .returned (match res with
                 | .ok _ => Except.ok ()
                 | .error e => Except.error e) [.handlerInvoked] := by
  have hwe : window_event a ev = some (handlerStep a ev) := by
    cases ev with
    | resized w h =>
        have hcond : ¬(w ≠ 0 ∧ h ≠ 0) := by
          simp only [dispatchesToHandler, Bool.or_eq_true, beq_iff_eq] at hd
          rcases hd with rfl | rfl <;> simp
        simp [window_event, hcond]
    | other t => rfl
  cases res with
  | ok ctl =>
    cases ctl with
    | Continue => exact absurd rfl hne
    | Exit =>
        have hstep : handlerStep a ev =
            ({ a with app_state := s2, exited := true }, [.handlerInvoked]) := by
          unfold handlerStep
          rw [hh]
        simp [run, runEvents, step, hex, hwe, hstep, runEvents_exited,
          exiting, hc, hst]
  | error e =>
      have hstep : handlerStep a ev =
          ({ a with app_state := s2, exit_state := .error e, exited := true },
            [.handlerInvoked]) := by
        unfold handlerStep
        rw [hh]
      simp [run, runEvents, step, hex, hwe, hstep, runEvents_exited,
        exiting, hc]

/-- Witness for C6 at a concrete application: the handler reports error 7
on a focus-like event and the run entry point returns exactly `error 7`. -/
theorem handler_exit_and_error_returned_witness :
    run { buildResult := .ok (), offeredConfigs := [], finalizeWindow := .ok (),
          grabConfined := true, grabLocked := true, createContext := fun _ => true,
          surfaceAttrsOk := true, createSurfaceOk := true, surfaceSize := (640, 480),
          makeCurrentOk := true, makeNotCurrentOk := true, vsyncOk := true,
          swapOk := true }
        errApp (.windowEvent (.other 0) :: [.aboutToWait]) =
      .returned (Except.error 7) [.handlerInvoked] :=
  handler_exit_and_error_returned _ errApp
    ⟨0, .platformDefault, ⟨4, some true⟩, true⟩ (.other 0) [.aboutToWait] 0
    (.error 7) rfl rfl rfl rfl rfl (by simp)

/-- C4: a deactivate signal drops the live (surface, window) pair and
stores the same context back merely marked not-current; the following
activate signal reads the stored surface configuration off that context,
makes the very same context current again, keeps the renderer, and
rebuilds only the window and surface.  The emitted trace shows no config
reselection and no context-creation attempt. -/
theorem deactivate_activate_reuses_context (env : Env) (a : App S) (c : Ctx)
    (gs : GlState) (r : Nat) (a1 : App S) (effs1 : List Effect) (a2 : App S)
    (effs2 : List Effect)
    (hdisp : a.gl_display = .init) (hc : a.gl_context = some c)
    (hgs : a.gl_state = some gs) (hr : a.renderer = some r)
    (hgrab : a.window_info.cursor_grabbed = false)
    (hmnc : env.makeNotCurrentOk = true) (hfin : env.finalizeWindow = .ok ())
    (hattrs : env.surfaceAttrsOk = true) (hsurf : env.createSurfaceOk = true)
    (hmc : env.makeCurrentOk = true)
    (hsus : suspended env a = some (a1, effs1))
    (hres : resumed env a1 = some (a2, effs2)) :
    a1.gl_state = none ∧
    a1.gl_context = some { c with current := false } ∧
    a2.gl_context = some { c with current := true } ∧
    a2.renderer = some r ∧
    effs2 = [.cursorVisible a.window_info.cursor_visible,
             .surfaceCreated c.config, .ctxMadeCurrent] ++
            (if env.vsyncOk then [Effect.setVsync] else [Effect.vsyncFailed]) ∧
    a2.gl_state = some ⟨⟨a.fresh + 1, env.surfaceSize.1, env.surfaceSize.2⟩, ⟨a.fresh⟩⟩ := by
  unfold suspended at hsus
  rw [hc] at hsus
  rw [hmnc] at hsus
  simp only [if_true, Option.some.injEq, Prod.mk.injEq] at hsus
  obtain ⟨ha1, heffs1⟩ := hsus
  subst ha1
  unfold resumed resumeHead resumeTail applyCursor insertRenderer at hres
  cases hv : env.vsyncOk with
  | false =>
      simp only [hdisp, hfin, hgrab, hattrs, hsurf, hmc, hr, hgs, hv,
        eq_self_iff_true, if_true, if_false, Bool.false_eq_true,
        Option.some.injEq, Prod.mk.injEq] at hres
      obtain ⟨ha2, heffs2⟩ := hres
      subst ha2
      subst heffs2
      simp [hr, insertRenderer]
  | true =>
      simp only [hdisp, hfin, hgrab, hattrs, hsurf, hmc, hr, hgs, hv,
        eq_self_iff_true, if_true, if_false, Bool.false_eq_true,
        Option.some.injEq, Prod.mk.injEq] at hres
      obtain ⟨ha2, heffs2⟩ := hres
      subst ha2
      subst heffs2
      simp [hr, insertRenderer]

/-- Witness for C4 at a concrete live application: the suspended context
is the same context un-currented, and resuming makes exactly it current
again against a fresh window and surface. -/
theorem deactivate_activate_reuses_context_witness :
    susPair.1.gl_state = none ∧
    susPair.1.gl_context = some ⟨0, .platformDefault, ⟨4, some true⟩, false⟩ ∧
    resPair.1.gl_context = some ⟨0, .platformDefault, ⟨4, some true⟩, true⟩ ∧
    resPair.1.renderer = some 3 ∧
    resPair.2 = [.cursorVisible true, .surfaceCreated ⟨4, some true⟩,
                 .ctxMadeCurrent, .setVsync] ∧
    resPair.1.gl_state = some ⟨⟨5, 640, 480⟩, ⟨4⟩⟩ :=
  deactivate_activate_reuses_context envOk liveApp
    ⟨0, .platformDefault, ⟨4, some true⟩, true⟩ ⟨⟨2, 100, 100⟩, ⟨1⟩⟩ 3
    susPair.1 susPair.2 resPair.1 resPair.2
    rfl rfl rfl rfl rfl rfl rfl rfl rfl rfl rfl rfl

/-- C5 counterexample: when all three context-negotiation levels fail, the
run entry point does not return the error as its result value — the
`expect("failed to create context")` panics, so no result is returned at
all. -/
theorem negotiation_failure_panics_not_returned :
    run envNoContext initialApp [.resumed] = .panicked ∧
    (run envNoContext initialApp [.resumed]).isReturned = false :=
  ⟨rfl, rfl⟩

/-- C5 amended: of the spec's fatal conditions only some reach the caller
as the run entry point's result value. (a) A display/window realization
failure on the FIRST activation records the error and requests exit, but
the exit hook then panics taking the absent context, so the error is lost
to a panic. (b) A window realization failure on a RE-activation is
returned as the result.  (c) Context negotiation total failure,
(d) cursor-grab failure in both modes, (e) failure to make the context
current, and (f) presentation failure all panic (`expect`/`unwrap`)
instead of being returned. -/
theorem fatal_conditions_panic_or_return (S : Type)
    (envA envB envC envD envE envF : Env) (aA aB aC aD aE aF : App S)
    (errA errB : Nat) (cB cF : Ctx) (cfgC cfgD cfgE : Config) (gsF : GlState)
    (rF : Nat) :
    (aA.gl_display = .builder → aA.gl_context = none → aA.exited = false →
      envA.buildResult = .error errA → run envA aA [.resumed] = .panicked) ∧
    (aB.gl_display = .init → aB.gl_context = some cB → aB.exited = false →
      envB.finalizeWindow = .error errB →
      run envB aB [.resumed] = .returned (.error errB) []) ∧
    (aC.gl_display = .builder → aC.exited = false → envC.buildResult = .ok () →
      gl_config_picker envC.offeredConfigs = some cfgC →
      aC.window_info.cursor_grabbed = false →
      envC.createContext = (fun _ => false) →
      run envC aC [.resumed] = .panicked) ∧
    (aD.gl_display = .builder → aD.exited = false → envD.buildResult = .ok () →
      gl_config_picker envD.offeredConfigs = some cfgD →
      aD.window_info.cursor_grabbed = true → envD.grabConfined = false →
      envD.grabLocked = false → run envD aD [.resumed] = .panicked) ∧
    (aE.gl_display = .builder → aE.exited = false → envE.buildResult = .ok () →
      gl_config_picker envE.offeredConfigs = some cfgE →
      aE.window_info.cursor_grabbed = false →
      envE.createContext = (fun _ => true) → envE.surfaceAttrsOk = true →
      envE.createSurfaceOk = true → envE.makeCurrentOk = false →
      run envE aE [.resumed] = .panicked) ∧
    (aF.gl_state = some gsF → aF.gl_context = some cF → aF.renderer = some rF →
      aF.exited = false → envF.swapOk = false →
      run envF aF [.aboutToWait] = .panicked) := by
  refine ⟨?_, ?_, ?_, ?_, ?_, ?_⟩
  · intro hdisp hc hex hb
    simp [run, runEvents, step, resumed, resumeHead, hdisp, hc, hex, hb, exiting]
  · intro hdisp hc hex hfin
    simp [run, runEvents, step, resumed, resumeHead, hdisp, hc, hex, hfin, exiting]
  · intro hdisp hex hb hpick hgrab hcc
    simp [run, runEvents, step, resumed, resumeHead, applyCursor, hdisp, hex, hb,
      hpick, hgrab, hcc, envCreate, create_gl_context_trace]
  · intro hdisp hex hb hpick hgrab hconf hlock
    simp [run, runEvents, step, resumed, resumeHead, applyCursor, hdisp, hex, hb,
      hpick, hgrab, hconf, hlock]
  · intro hdisp hex hb hpick hgrab hcc hattrs hsurf hmc
    simp [run, runEvents, step, resumed, resumeHead, resumeTail, applyCursor, hdisp,
      hex, hb, hpick, hgrab, hcc, hattrs, hsurf, hmc, envCreate,
      create_gl_context_trace]
  · intro hgs hc hr hex hswap
    simp [run, runEvents, step, about_to_wait, hgs, hc, hr, hex, hswap]

/-- Witness for C5 amended at concrete applications and environments, one
per fatal condition. -/
theorem fatal_conditions_panic_or_return_witness :
    run envErrBuild initialApp [.resumed] = .panicked ∧
    run envErrFin liveApp [.resumed] = .returned (.error 12) [] ∧
    run envNoContext initialApp [.resumed] = .panicked ∧
    run envNoGrab grabApp [.resumed] = .panicked ∧
    run envNoCurrent initialApp [.resumed] = .panicked ∧
    run envNoSwap liveApp [.aboutToWait] = .panicked := by
  have h := fatal_conditions_panic_or_return Nat
    envErrBuild envErrFin envNoContext envNoGrab envNoCurrent envNoSwap
    initialApp liveApp initialApp grabApp initialApp liveApp
    11 12 ⟨0, .platformDefault, ⟨4, some true⟩, true⟩
    ⟨0, .platformDefault, ⟨4, some true⟩, true⟩
    ⟨4, some true⟩ ⟨4, some true⟩ ⟨4, some true⟩ ⟨⟨2, 100, 100⟩, ⟨1⟩⟩ 3
  exact ⟨h.1 rfl rfl rfl rfl, h.2.1 rfl rfl rfl rfl, h.2.2.1 rfl rfl rfl rfl rfl rfl,
    h.2.2.2.1 rfl rfl rfl rfl rfl rfl rfl,
    h.2.2.2.2.1 rfl rfl rfl rfl rfl rfl rfl rfl rfl,
    h.2.2.2.2.2 rfl rfl rfl rfl rfl⟩

lemma rendererInit_not_mem_applyCursor (env : Env) (wi : WindowInformation)
    (effs : List Effect) (h : applyCursor env wi = some effs) :
    Effect.rendererInit ∉ effs := by
  unfold applyCursor at h
  split_ifs at h <;>
    first
      | exact Option.noConfusion h
      | (have he := Option.some.inj h
         subst he
         simp)

lemma resumeHead_renderer (env : Env) (a : App S) (out : ResumeHead S)
    (h : resumeHead env a = some out) :
    (match out with
     | .exitTaken a2 effs => a2.renderer = a.renderer ∧ Effect.rendererInit ∉ effs
     | .proceed _ _ a2 effs => a2.renderer = a.renderer ∧ Effect.rendererInit ∉ effs) := by
  unfold resumeHead at h
  cases hdisp : a.gl_display with
  | builder =>
    simp only [hdisp] at h
    cases hb : env.buildResult with
    | error err =>
        simp only [hb, Option.some.injEq] at h
        subst h
        simp
    | ok u =>
        simp only [hb] at h
        cases hp : gl_config_picker env.offeredConfigs with
        | none => simp [hp] at h
        | some cfg =>
          simp only [hp] at h
          cases hcur : applyCursor env a.window_info with
          | none => simp [hcur] at h
          | some ceffs =>
            simp only [hcur] at h
            have hnc := rendererInit_not_mem_applyCursor env a.window_info ceffs hcur
            rcases hct : create_gl_context_trace (envCreate env cfg (a.fresh + 1)) with
              ⟨res, att⟩
            simp only [hct] at h
            cases res with
            | none => exact absurd h (by simp)
            | some c =>
                simp only [Option.some.injEq] at h
                subst h
                simp [hnc, List.mem_cons, List.mem_append, List.mem_map]
  | init =>
    simp only [hdisp] at h
    cases hc : a.gl_context with
    | none => simp [hc] at h
    | some c =>
      simp only [hc] at h
      cases hfin : env.finalizeWindow with
      | error err =>
          simp only [hfin, Option.some.injEq] at h
          subst h
          simp
      | ok u =>
          simp only [hfin] at h
          cases hcur : applyCursor env a.window_info with
          | none => simp [hcur] at h
          | some ceffs =>
            simp only [hcur, Option.some.injEq] at h
            have hnc := rendererInit_not_mem_applyCursor env a.window_info ceffs hcur
            subst h
            simp [hnc]

lemma resumeTail_renderer (env : Env) (w : PlatformWindow) (cfg : Config)
    (a : App S) (a2 : App S) (effs : List Effect)
    (h : resumeTail env w cfg a = some (a2, effs)) :
    effs.count Effect.rendererInit + rendererBudget a2 = rendererBudget a ∧
    (∀ r, a.renderer = some r → a2.renderer = some r) := by
  unfold resumeTail at h
  cases h1 : env.surfaceAttrsOk with
  | false => simp [h1] at h
  | true =>
  simp only [h1, if_true] at h
  cases h2 : env.createSurfaceOk with
  | false => simp [h2] at h
  | true =>
  simp only [h2, if_true] at h
  cases hc : a.gl_context with
  | none => simp [hc] at h
  | some c =>
    simp only [hc] at h
    cases h3 : env.makeCurrentOk with
    | false => simp [h3] at h
    | true =>
    simp only [h3, if_true] at h
    cases hr : a.renderer with
    | some r =>
        simp only [insertRenderer, hr] at h
        cases hgs : a.gl_state with
        | some gs => simp [hgs] at h
        | none =>
            simp only [hgs, Option.some.injEq, Prod.mk.injEq] at h
            obtain ⟨ha2, heffs⟩ := h
            subst ha2
            subst heffs
            refine ⟨?_, ?_⟩
            · cases hv : env.vsyncOk <;>
                simp [hv, rendererBudget, hr, List.count_append, List.count_cons]
            · intro r2 hr2
              simp only [Option.some.injEq] at hr2
              subst hr2
              rfl
    | none =>
        simp only [insertRenderer, hr] at h
        cases hgs : a.gl_state with
        | some gs => simp [hgs] at h
        | none =>
            simp only [hgs, Option.some.injEq, Prod.mk.injEq] at h
            obtain ⟨ha2, heffs⟩ := h
            subst ha2
            subst heffs
            refine ⟨?_, ?_⟩
            · cases hv : env.vsyncOk <;>
                simp [hv, rendererBudget, hr, List.count_append, List.count_cons]
            · intro r2 hr2
              exact absurd hr2 (by simp)

lemma handlerStep_renderer_eq (a : App S) (ev : WindowEvent) :
    (handlerStep a ev).1.renderer = a.renderer := by
  unfold handlerStep
  split <;> rfl

lemma handler_branch_renderer (a : App S) (ev : WindowEvent) (a2 : App S)
    (effs : List Effect) (h : handlerStep a ev = (a2, effs)) :
    effs.count Effect.rendererInit + rendererBudget a2 = rendererBudget a ∧
    (∀ r, a.renderer = some r → a2.renderer = some r) := by
  have ha2 : (handlerStep a ev).1 = a2 := by rw [h]
  have heffs : (handlerStep a ev).2 = effs := by rw [h]
  constructor
  · rw [← heffs, handlerStep_effects]
    unfold rendererBudget
    rw [← ha2, handlerStep_renderer_eq]
    simp
  · intro r hr
    rw [← ha2, handlerStep_renderer_eq]
    exact hr

lemma step_renderer (env : Env) (a : App S) (e : LoopEvent) (a2 : App S)
    (effs : List Effect) (h : step env a e = some (a2, effs)) :
    effs.count Effect.rendererInit + rendererBudget a2 = rendererBudget a ∧
    (∀ r, a.renderer = some r → a2.renderer = some r) := by
  cases e with
  | resumed =>
    unfold step resumed at h
    cases hh : resumeHead env a with
    | none => simp [hh] at h
    | some out =>
      simp only [hh] at h
      have hro := resumeHead_renderer env a out hh
      cases out with
      | exitTaken a3 effs3 =>
          simp only [Option.some.injEq, Prod.mk.injEq] at h
          obtain ⟨ha2, heffs⟩ := h
          subst ha2
          subst heffs
          obtain ⟨hren, hmem⟩ := hro
          refine ⟨?_, ?_⟩
          · rw [List.count_eq_zero.mpr hmem]
            unfold rendererBudget
            rw [hren]
            omega
          · intro r hr
            rw [hren]
            exact hr
      | proceed w cfg a3 effs3 =>
          obtain ⟨hren, hmem⟩ := hro
          cases ht : resumeTail env w cfg a3 with
          | none => simp [ht] at h
          | some pr =>
              obtain ⟨a4, effs4⟩ := pr
              simp only [ht, Option.some.injEq, Prod.mk.injEq] at h
              obtain ⟨ha2, heffs⟩ := h
              subst ha2
              subst heffs
              have htail := resumeTail_renderer env w cfg a3 a4 effs4 ht
              refine ⟨?_, ?_⟩
              · have h1 := htail.1
                have h2 : rendererBudget a3 = rendererBudget a := by
                  unfold rendererBudget
                  rw [hren]
                rw [List.count_append, List.count_eq_zero.mpr hmem]
                omega
              · intro r hr
                exact htail.2 r (by rw [hren]; exact hr)
  | suspended =>
    unfold step suspended at h
    cases hc : a.gl_context with
    | none => simp [hc] at h
    | some c =>
      simp only [hc] at h
      cases hm : env.makeNotCurrentOk with
      | false => simp [hm] at h
      | true =>
        simp only [hm, eq_self_iff_true, if_true, Option.some.injEq,
          Prod.mk.injEq] at h
        obtain ⟨ha2, heffs⟩ := h
        subst ha2
        subst heffs
        refine ⟨by simp [rendererBudget], fun r hr => hr⟩
  | windowEvent ev =>
    unfold step window_event at h
    cases ev with
    | other t => exact handler_branch_renderer a (.other t) a2 effs (Option.some.inj h)
    | resized w hgt =>
      by_cases hcond : w ≠ 0 ∧ hgt ≠ 0
      · simp only [if_pos hcond] at h
        cases hgs : a.gl_state with
        | none =>
            simp only [hgs, Option.some.injEq, Prod.mk.injEq] at h
            obtain ⟨ha2, heffs⟩ := h
            subst ha2
            subst heffs
            exact ⟨by simp, fun r hr => hr⟩
        | some gs =>
            simp only [hgs] at h
            cases hc : a.gl_context with
            | none => simp [hc] at h
            | some c =>
              simp only [hc] at h
              cases hr : a.renderer with
              | none => simp [hr] at h
              | some r0 =>
                simp only [hr, Option.some.injEq, Prod.mk.injEq] at h
                obtain ⟨ha2, heffs⟩ := h
                subst ha2
                subst heffs
                refine ⟨by simp [rendererBudget, hr], ?_⟩
                intro r hr2
                simpa [hr] using hr2
      · simp only [if_neg hcond] at h
        exact handler_branch_renderer a (.resized w hgt) a2 effs (Option.some.inj h)
  | aboutToWait =>
    unfold step about_to_wait at h
    cases hgs : a.gl_state with
    | none =>
        simp only [hgs, Option.some.injEq, Prod.mk.injEq] at h
        obtain ⟨ha2, heffs⟩ := h
        subst ha2
        subst heffs
        exact ⟨by simp, fun r hr => hr⟩
    | some gs =>
        simp only [hgs] at h
        cases hc : a.gl_context with
        | none => simp [hc] at h
        | some c =>
          simp only [hc] at h
          cases hr : a.renderer with
          | none => simp [hr] at h
          | some r0 =>
            simp only [hr] at h
            cases hs : env.swapOk with
            | false => simp [hs] at h
            | true =>
              simp only [hs, eq_self_iff_true, if_true, Option.some.injEq,
                Prod.mk.injEq] at h
              obtain ⟨ha2, heffs⟩ := h
              subst ha2
              subst heffs
              refine ⟨by simp [rendererBudget], ?_⟩
              intro r hrr
              rw [hr]
              exact hrr

lemma runEvents_renderer (env : Env) :
    ∀ (events : List LoopEvent) (a a2 : App S) (tr : List Effect),
      runEvents env a events = some (a2, tr) →
      tr.count Effect.rendererInit + rendererBudget a2 = rendererBudget a ∧
      (∀ r, a.renderer = some r → a2.renderer = some r) := by
  intro events
  induction events with
  | nil =>
      intro a a2 tr h
      simp only [runEvents, Option.some.injEq, Prod.mk.injEq] at h
      obtain ⟨ha2, htr⟩ := h
      subst ha2
      subst htr
      exact ⟨by simp, fun r hr => hr⟩
  | cons e es ih =>
      intro a a2 tr h
      unfold runEvents at h
      cases hex : a.exited with
      | true =>
          simp only [hex, eq_self_iff_true, if_true, Option.some.injEq,
            Prod.mk.injEq] at h
          obtain ⟨ha2, htr⟩ := h
          subst ha2
          subst htr
          exact ⟨by simp, fun r hr => hr⟩
      | false =>
          simp only [hex, Bool.false_eq_true, if_false] at h
          cases hs : step env a e with
          | none => simp [hs] at h
          | some pr =>
              obtain ⟨a3, effs⟩ := pr
              simp only [hs] at h
              cases hrest : runEvents env a3 es with
              | none => simp [hrest] at h
              | some pr2 =>
                  obtain ⟨a4, effs2⟩ := pr2
                  simp only [hrest, Option.some.injEq, Prod.mk.injEq] at h
                  obtain ⟨ha2, htr⟩ := h
                  subst ha2
                  subst htr
                  have h1 := step_renderer env a e a3 effs hs
                  have h2 := ih a3 a4 effs2 hrest
                  refine ⟨?_, ?_⟩
                  · rw [List.count_append]
                    have h3 := h1.1
                    have h4 := h2.1
                    omega
                  · intro r hr
                    exact h2.2 r (h1.2 r hr)

/-- C9: across any processed signal stream the renderer is constructed at
most once — the trace's count of renderer constructions (each of which
resolves GPU symbols) plus the remaining construction budget (1 before the
renderer exists, 0 after) is conserved, so a run started with no renderer
constructs it at most once; and once the renderer exists, every later
signal (in particular every later activation) reuses exactly the stored
instance and performs no further construction or symbol resolution. -/
theorem renderer_constructed_at_most_once (env : Env) (a a2 : App S)
    (events : List LoopEvent) (tr : List Effect)
    (h : runEvents env a events = some (a2, tr)) :
    tr.count Effect.rendererInit + rendererBudget a2 = rendererBudget a ∧
    (a.renderer.isSome = true →
      a2.renderer = a.renderer ∧ tr.count Effect.rendererInit = 0) := by
  have hm := runEvents_renderer env events a a2 tr h
  refine ⟨hm.1, ?_⟩
  intro hs
  obtain ⟨r, hr⟩ := Option.isSome_iff_exists.mp hs
  have h2 := hm.2 r hr
  have h3 := hm.1
  have h4 : rendererBudget a = 0 := by simp [rendererBudget, hr]
  have h5 : rendererBudget a2 = 0 := by simp [rendererBudget, h2]
  exact ⟨by rw [h2, hr], by omega⟩

/-- Witness for C9 at a concrete run: `liveApp` already holds a renderer,
is suspended and resumed, and the renderer instance is reused with no
further construction. -/
theorem renderer_constructed_at_most_once_witness :
    runPairC9.2.count Effect.rendererInit + rendererBudget runPairC9.1 =
      rendererBudget liveApp ∧
    (liveApp.renderer.isSome = true →
      runPairC9.1.renderer = liveApp.renderer ∧
      runPairC9.2.count Effect.rendererInit = 0) :=
  renderer_constructed_at_most_once envOk liveApp runPairC9.1
    [.suspended, .resumed] runPairC9.2 rfl

end GlWindow
